import Mathlib

/-!
Verification of the `aicommits` command (src/src/commands/aicommits.ts).

The command is a linear sequence of shell-outs, two user prompts, one
remote generation call, a selection/regeneration step and a final
`git commit`.  We embed it as a pure function `run : Inputs → RunResult`:
every external collaborator (the git binary, the clack prompts, the
OpenAI adapter, the spawned child processes) is represented by the value
it returns to the command, packed into `Inputs`; `RunResult` records the
observable behaviour of one invocation — which commits and child spawns
were executed, which prompts were shown, the spinner lifecycle, the final
outro line and the process exit code (0 for a normal return of the async
body, 1 for the `.catch` handler that calls `process.exit(1)`).
-/

/-- The closed prefix enumeration.  In the source the keys of the
`commitPrefixes` record (aicommits.ts lines 17–29); the empty-string key
is rendered here as the constructor `none`. -/
inductive PrefixChoice where
  | none
  | entrust
  | fix
  | chore
  | docs
  | style
  | feat
  | perf
  | test
  | security
  | refactor
deriving DecidableEq, Repr

/-- The fixed decoration-label table, aicommits.ts lines 17–29. -/
def commitPrefixes : PrefixChoice → String
  | PrefixChoice.none => ""
  | PrefixChoice.entrust => ""
  | PrefixChoice.fix => "🐛 fix"
  | PrefixChoice.chore => "🔨 chore"
  | PrefixChoice.docs => "📝 docs"
  | PrefixChoice.style => "🎨 style"
  | PrefixChoice.feat => "🚀 feat"
  | PrefixChoice.perf => "🔥 perf"
  | PrefixChoice.test => "🚨 test"
  | PrefixChoice.security => "🔒 security"
  | PrefixChoice.refactor => "🔧 refactor"

/-- The decoration step, aicommits.ts lines 124 and 155:
`(prefix === 'entrust' || prefix === '') || (message = commitPrefixes[prefix] + ': ' + message)`. -/
def decorate (p : PrefixChoice) (m : String) : String :=
  if p = PrefixChoice.entrust ∨ p = PrefixChoice.none then m
  else commitPrefixes p ++ ": " ++ m

/-- `bgInfo ? 'Background information provided from user: ' + bgInfo : ''`
(aicommits.ts line 99; JavaScript string truthiness: only the empty
string is falsy). -/
def bgInfoText (bgInfo : String) : String :=
  if bgInfo = "" then "" else "Background information provided from user: " ++ bgInfo

/-- The directive appended when the `entrust` prefix was chosen,
aicommits.ts line 105. -/
def entrustDirective : String :=
  "\nThe commit message must begin with an emoji and prefix that best describes the change. (e.g. 🐛 fix: bug in something.js file where processing does not stop)"

/-- The auxiliary instruction string handed to `generateCommitMessage`
(fifth argument, aicommits.ts line 105). -/
def genInstructionOf (p : PrefixChoice) (bgInfo : String) : String :=
  if p = PrefixChoice.entrust then bgInfoText bgInfo ++ entrustDirective
  else bgInfoText bgInfo

/-- Error message thrown when `getStagedDiff` finds nothing,
aicommits.ts line 53. -/
def noStagedMsg : String :=
  "No staged changes found. Stage your changes manually, or automatically stage all changes with the `--all` flag."

/-- Error message thrown on an empty candidate set, aicommits.ts line 117. -/
def emptyGenMsg : String :=
  "No commit messages were generated. Try again."

/-- The outro printed on every cancellation path (aicommits.ts lines 72,
92, 136, 149). -/
def cancelOutro : String := "Commit cancelled"

/-- The outro printed after a successful commit, aicommits.ts line 160
(the kolorist colour escape around the check mark is elided). -/
def successOutro : String := "✔ Successfully committed!"

/-- The failure line printed by the single `.catch` handler,
aicommits.ts line 162 (colour escape around the cross elided). -/
def errLine (e : String) : String := "✖ " ++ e

/-- Result of `getStagedDiff`: staged file list and unified diff text. -/
structure StagedDiff where
  files : List String
  diff : String
deriving DecidableEq, Repr

/-- Result of one clack prompt: the user either cancels (`isCancel`) or
submits a value. -/
inductive Answer (α : Type) where
  | cancelled
  | submitted (val : α)
deriving DecidableEq, Repr

/-- The three option values of the single-candidate confirmation select,
aicommits.ts lines 127–131. -/
inductive Confirm3 where
  | yes
  | regenerate
  | cancel
deriving DecidableEq, Repr

/-- One invocation of `git commit -m <message> <rawArgv…>`
(aicommits.ts line 158). -/
structure CommitCall where
  message : String
  extraArgs : List String
deriving DecidableEq, Repr

/-- One child-process spawn (the regenerate re-invocation,
aicommits.ts line 140). -/
structure SpawnCall where
  cmd : String
  args : List String
  stdioInherit : Bool
deriving DecidableEq, Repr

/-- Terminal outcome of one process instance. -/
inductive Outcome where
  | committed (msg : String)
  | cancelled
  | regenerated
  | fatal (errMsg : String)
deriving DecidableEq, Repr

/-- Everything one invocation consumes: the CLI arguments of the command
(aicommits.ts lines 31–37) and the value each external collaborator
returns when the command reaches it. -/
structure Inputs where
  generate : Option Nat
  excludeFiles : List String
  stageAll : Bool
  commitType : Option String
  rawArgv : List String
  /-- result of `assertGitRepo` (throws when not inside a repository) -/
  repoCheck : Except String Unit
  /-- result of `git add --update` (consulted only when `stageAll`) -/
  addUpdate : Except String Unit
  /-- result of `getStagedDiff excludeFiles`; `none` means no diff found -/
  staged : Option StagedDiff
  /-- the background-note text prompt -/
  bgInfoAnswer : Answer String
  /-- the prefix-selection prompt -/
  pfxAnswer : Answer PrefixChoice
  /-- result of `generateCommitMessage` (candidate list, or a thrown error) -/
  genResult : Except String (List String)
  /-- the single-candidate 3-way confirmation select -/
  confirmAnswer : Answer Confirm3
  /-- the multi-candidate pick: given the option list shown, the user
  cancels or picks one option value -/
  multiPick : List String → Answer String
  /-- result of the `git commit` shell-out -/
  commitResult : Except String Unit
  /-- result of awaiting the spawned `aim` child on the regenerate path -/
  regenChild : Except String Unit

/-- Observable behaviour of one invocation. -/
structure RunResult where
  outcome : Outcome
  exitCode : Nat
  commits : List CommitCall := []
  spawns : List SpawnCall := []
  analyzeStarted : Bool := false
  analyzeStopped : Bool := false
  singlePromptShown : Bool := false
  singleDefault : Option String := Option.none
  multiPromptShown : Bool := false
  /-- the `(label, value)` pairs of the multi-candidate select -/
  multiOptions : List (String × String) := []
  multiDefault : Option String := Option.none
  /-- the auxiliary instruction actually passed to the generator -/
  genInstruction : Option String := Option.none
  outroMsg : Option String := Option.none
deriving DecidableEq, Repr

/-- The whole command body (aicommits.ts lines 31–165), with the final
`.catch` handler folded in: any thrown error becomes `Outcome.fatal`
with exit code 1; a normal return of the async body exits 0. -/
def run (i : Inputs) : RunResult :=
  match i.repoCheck with
  | Except.error e => { outcome := Outcome.fatal e, exitCode := 1, outroMsg := some (errLine e) }
  | Except.ok _ =>
    match (if i.stageAll then i.addUpdate else Except.ok ()) with
    | Except.error e => { outcome := Outcome.fatal e, exitCode := 1, outroMsg := some (errLine e) }
    | Except.ok _ =>
      match i.staged with
      | Option.none =>
        { outcome := Outcome.fatal noStagedMsg, exitCode := 1
          outroMsg := some (errLine noStagedMsg) }
      | Option.some _ =>
        match i.bgInfoAnswer with
        | Answer.cancelled =>
          { outcome := Outcome.cancelled, exitCode := 0, outroMsg := some cancelOutro }
        | Answer.submitted bgInfo =>
          match i.pfxAnswer with
          | Answer.cancelled =>
            { outcome := Outcome.cancelled, exitCode := 0, outroMsg := some cancelOutro }
          | Answer.submitted pfx =>
            match i.genResult with
            | Except.error e =>
              { outcome := Outcome.fatal e, exitCode := 1
                analyzeStarted := true, analyzeStopped := true
                genInstruction := some (genInstructionOf pfx bgInfo)
                outroMsg := some (errLine e) }
            | Except.ok messages =>
              match messages with
              | [] =>
                { outcome := Outcome.fatal emptyGenMsg, exitCode := 1
                  analyzeStarted := true, analyzeStopped := true
                  genInstruction := some (genInstructionOf pfx bgInfo)
                  outroMsg := some (errLine emptyGenMsg) }
              | [m0] =>
                match i.confirmAnswer with
                | Answer.cancelled =>
                  { outcome := Outcome.cancelled, exitCode := 0
                    analyzeStarted := true, analyzeStopped := true
                    genInstruction := some (genInstructionOf pfx bgInfo)
                    singlePromptShown := true, singleDefault := some ("yes")
                    outroMsg := some cancelOutro }
                | Answer.submitted Confirm3.cancel =>
                  { outcome := Outcome.cancelled, exitCode := 0
                    analyzeStarted := true, analyzeStopped := true
                    genInstruction := some (genInstructionOf pfx bgInfo)
                    singlePromptShown := true, singleDefault := some ("yes")
                    outroMsg := some cancelOutro }
                | Answer.submitted Confirm3.regenerate =>
                  match i.regenChild with
                  | Except.ok _ =>
                    { outcome := Outcome.regenerated, exitCode := 0
                      analyzeStarted := true, analyzeStopped := true
                      genInstruction := some (genInstructionOf pfx bgInfo)
                      singlePromptShown := true, singleDefault := some ("yes")
                      spawns := [⟨"aim", i.rawArgv, true⟩] }
                  | Except.error e =>
                    { outcome := Outcome.fatal e, exitCode := 1
                      analyzeStarted := true, analyzeStopped := true
                      genInstruction := some (genInstructionOf pfx bgInfo)
                      singlePromptShown := true, singleDefault := some ("yes")
                      spawns := [⟨"aim", i.rawArgv, true⟩]
                      outroMsg := some (errLine e) }
                | Answer.submitted Confirm3.yes =>
                  match i.commitResult with
                  | Except.ok _ =>
                    { outcome := Outcome.committed (decorate pfx m0), exitCode := 0
                      analyzeStarted := true, analyzeStopped := true
                      genInstruction := some (genInstructionOf pfx bgInfo)
                      singlePromptShown := true, singleDefault := some ("yes")
                      commits := [⟨decorate pfx m0, i.rawArgv⟩]
                      outroMsg := some successOutro }
                  | Except.error e =>
                    { outcome := Outcome.fatal e, exitCode := 1
                      analyzeStarted := true, analyzeStopped := true
                      genInstruction := some (genInstructionOf pfx bgInfo)
                      singlePromptShown := true, singleDefault := some ("yes")
                      commits := [⟨decorate pfx m0, i.rawArgv⟩]
                      outroMsg := some (errLine e) }
              | m0 :: m1 :: rest =>
                match i.multiPick (m0 :: m1 :: rest) with
                | Answer.cancelled =>
                  { outcome := Outcome.cancelled, exitCode := 0
                    analyzeStarted := true, analyzeStopped := true
                    genInstruction := some (genInstructionOf pfx bgInfo)
                    multiPromptShown := true
                    multiOptions := (m0 :: m1 :: rest).map (fun v => (v, v))
                    outroMsg := some cancelOutro }
                | Answer.submitted sel =>
                  match i.commitResult with
                  | Except.ok _ =>
                    { outcome := Outcome.committed (decorate pfx sel), exitCode := 0
                      analyzeStarted := true, analyzeStopped := true
                      genInstruction := some (genInstructionOf pfx bgInfo)
                      multiPromptShown := true
                      multiOptions := (m0 :: m1 :: rest).map (fun v => (v, v))
                      commits := [⟨decorate pfx sel, i.rawArgv⟩]
                      outroMsg := some successOutro }
                  | Except.error e =>
                    { outcome := Outcome.fatal e, exitCode := 1
                      analyzeStarted := true, analyzeStopped := true
                      genInstruction := some (genInstructionOf pfx bgInfo)
                      multiPromptShown := true
                      multiOptions := (m0 :: m1 :: rest).map (fun v => (v, v))
                      commits := [⟨decorate pfx sel, i.rawArgv⟩]
                      outroMsg := some (errLine e) }

/-- The run reaches the two user prompts: the repository check passed,
the optional `git add --update` passed, and a staged diff was found. -/
def ReachesPrompts (i : Inputs) : Prop :=
  i.repoCheck = Except.ok () ∧ (i.stageAll = true → i.addUpdate = Except.ok ())
    ∧ ∃ d, i.staged = some d

/-- The run reaches the generation call, with note `b` and prefix `p`
submitted at the two prompts. -/
def ReachesGen (i : Inputs) (b : String) (p : PrefixChoice) : Prop :=
  ReachesPrompts i ∧ i.bgInfoAnswer = Answer.submitted b
    ∧ i.pfxAnswer = Answer.submitted p

/-- C1: for every raw candidate `m`, decorating with `none` or `entrust`
returns `m` unchanged, decorating with any other prefix prepends exactly
its fixed label followed by `: `, decoration with `none` is idempotent
under re-application, and prefix `fix` on `add login guard` yields
`🐛 fix: add login guard`. -/
theorem decorate_rule (p : PrefixChoice) (m : String) :
    decorate PrefixChoice.none m = m
    ∧ decorate PrefixChoice.entrust m = m
    ∧ decorate PrefixChoice.fix m = "🐛 fix: " ++ m
    ∧ decorate PrefixChoice.chore m = "🔨 chore: " ++ m
    ∧ decorate PrefixChoice.docs m = "📝 docs: " ++ m
    ∧ decorate PrefixChoice.style m = "🎨 style: " ++ m
    ∧ decorate PrefixChoice.feat m = "🚀 feat: " ++ m
    ∧ decorate PrefixChoice.perf m = "🔥 perf: " ++ m
    ∧ decorate PrefixChoice.test m = "🚨 test: " ++ m
    ∧ decorate PrefixChoice.security m = "🔒 security: " ++ m
    ∧ decorate PrefixChoice.refactor m = "🔧 refactor: " ++ m
    ∧ decorate PrefixChoice.none (decorate p m) = decorate p m
    ∧ decorate PrefixChoice.fix ("add login guard") = "🐛 fix: add login guard" := by
  refine ⟨rfl, rfl, rfl, rfl, rfl, rfl, rfl, rfl, rfl, rfl, rfl, rfl, rfl⟩

/-- C2: every invocation either performs exactly one `git commit`
invocation, carrying a single final message alongside the pass-through
raw arguments, or performs none at all. -/
theorem run_commit_at_most_once (i : Inputs) :
    (run i).commits = [] ∨ ∃ m, (run i).commits = [⟨m, i.rawArgv⟩] := by
  unfold run
  repeat' split
  all_goals first
    | exact Or.inl rfl
    | exact Or.inr ⟨_, rfl⟩

/-- When `stageAll` implies a successful `git add --update`, the staging
step of the run reduces to a success. -/
theorem stage_step_ok (i : Inputs)
    (hau : i.stageAll = true → i.addUpdate = Except.ok ()) :
    (if i.stageAll then i.addUpdate else Except.ok ()) = Except.ok () := by
  cases hsa : i.stageAll with
  | true => simp [hau hsa]
  | false => simp

/-- C3: cancelling at any prompt (background note, prefix selection,
the single-candidate confirmation — including picking No-cancel — or the
multi-candidate pick) yields the cancelled outcome with the
`Commit cancelled` outro, no commit, no spawn, and exit code 0. -/
theorem run_cancel_paths (i : Inputs)
    (hre : ReachesPrompts i)
    (hc : i.bgInfoAnswer = Answer.cancelled
       ∨ i.pfxAnswer = Answer.cancelled
       ∨ (∃ b p m, i.bgInfoAnswer = Answer.submitted b
            ∧ i.pfxAnswer = Answer.submitted p
            ∧ i.genResult = Except.ok [m]
            ∧ (i.confirmAnswer = Answer.cancelled
               ∨ i.confirmAnswer = Answer.submitted Confirm3.cancel))
       ∨ (∃ b p m0 m1 rest, i.bgInfoAnswer = Answer.submitted b
            ∧ i.pfxAnswer = Answer.submitted p
            ∧ i.genResult = Except.ok (m0 :: m1 :: rest)
            ∧ i.multiPick (m0 :: m1 :: rest) = Answer.cancelled)) :
    (run i).outcome = Outcome.cancelled ∧ (run i).commits = []
    ∧ (run i).spawns = [] ∧ (run i).exitCode = 0
    ∧ (run i).outroMsg = some cancelOutro := by
  obtain ⟨hrc, hau, d, hst⟩ := hre
  have hadd := stage_step_ok i hau
  rcases hc with hbg | hpf | ⟨b, p, m, hbg, hpf, hgen, hconf⟩
    | ⟨b, p, m0, m1, rest, hbg, hpf, hgen, hmp⟩
  · simp [run, hrc, hadd, hst, hbg]
  · cases hbg : i.bgInfoAnswer <;> simp [run, hrc, hadd, hst, hbg, hpf]
  · rcases hconf with hconf | hconf <;> simp [run, hrc, hadd, hst, hbg, hpf, hgen, hconf]
  · simp [run, hrc, hadd, hst, hbg, hpf, hgen, hmp]

/-- C4: with a single candidate, choosing No-regenerate spawns exactly
one `aim` child carrying the original raw arguments with an inherited
terminal, performs no commit, and the current process's outcome mirrors
the child's exit. -/
theorem run_single_regenerate (i : Inputs) (b : String) (p : PrefixChoice) (m : String)
    (hre : ReachesGen i b p)
    (hgen : i.genResult = Except.ok [m])
    (hconf : i.confirmAnswer = Answer.submitted Confirm3.regenerate) :
    (run i).spawns = [⟨"aim", i.rawArgv, true⟩]
    ∧ (run i).commits = []
    ∧ (i.regenChild = Except.ok () →
        (run i).outcome = Outcome.regenerated ∧ (run i).exitCode = 0)
    ∧ (∀ e, i.regenChild = Except.error e →
        (run i).outcome = Outcome.fatal e ∧ (run i).exitCode = 1) := by
  obtain ⟨⟨hrc, hau, d, hst⟩, hbg, hpf⟩ := hre
  have hadd := stage_step_ok i hau
  cases hrg : i.regenChild <;>
    simp [run, hrc, hadd, hst, hbg, hpf, hgen, hconf, hrg]

/-- C5: with more than one candidate, the pick prompt offers exactly one
option per raw candidate in generation order with no default, the single
confirmation prompt is never shown and no regenerate spawn occurs; a
picked candidate is decorated and committed immediately, and cancelling
yields the cancelled outcome with no commit. -/
theorem run_multi_pick (i : Inputs) (b : String) (p : PrefixChoice)
    (m0 m1 : String) (rest : List String)
    (hre : ReachesGen i b p)
    (hgen : i.genResult = Except.ok (m0 :: m1 :: rest)) :
    (run i).multiOptions = (m0 :: m1 :: rest).map (fun v => (v, v))
    ∧ (run i).multiDefault = Option.none
    ∧ (run i).singlePromptShown = false
    ∧ (run i).spawns = []
    ∧ (∀ sel, i.multiPick (m0 :: m1 :: rest) = Answer.submitted sel →
        (run i).commits = [⟨decorate p sel, i.rawArgv⟩])
    ∧ (i.multiPick (m0 :: m1 :: rest) = Answer.cancelled →
        (run i).outcome = Outcome.cancelled ∧ (run i).commits = []) := by
  obtain ⟨⟨hrc, hau, d, hst⟩, hbg, hpf⟩ := hre
  have hadd := stage_step_ok i hau
  cases hmp : i.multiPick (m0 :: m1 :: rest) <;>
    cases hcr : i.commitResult <;>
    simp [run, hrc, hadd, hst, hbg, hpf, hgen, hmp, hcr]

/-- C6: an empty candidate set makes the run fail with the
`No commit messages were generated. Try again.` error before any
selection prompt is shown; no commit occurs and the process exits 1. -/
theorem run_empty_generation (i : Inputs) (b : String) (p : PrefixChoice)
    (hre : ReachesGen i b p) (hgen : i.genResult = Except.ok []) :
    (run i).outcome = Outcome.fatal emptyGenMsg
    ∧ (run i).exitCode = 1 ∧ (run i).commits = []
    ∧ (run i).singlePromptShown = false ∧ (run i).multiPromptShown = false
    ∧ (run i).outroMsg = some (errLine emptyGenMsg) := by
  obtain ⟨⟨hrc, hau, d, hst⟩, hbg, hpf⟩ := hre
  have hadd := stage_step_ok i hau
  simp [run, hrc, hadd, hst, hbg, hpf, hgen]

/-- C7: when the detector finds no staged diff (auto-stage-all flag
absent), the run fails with the `No staged changes found…` message,
exits 1, performs no commit and shows no selection prompt. -/
theorem run_no_staged_changes (i : Inputs)
    (hrc : i.repoCheck = Except.ok ()) (hsa : i.stageAll = false)
    (hst : i.staged = Option.none) :
    (run i).outcome = Outcome.fatal noStagedMsg ∧ (run i).exitCode = 1
    ∧ (run i).commits = []
    ∧ (run i).outroMsg = some (errLine noStagedMsg)
    ∧ (run i).singlePromptShown = false ∧ (run i).multiPromptShown = false := by
  simp [run, hrc, hsa, hst]

/-- C8: every terminating run exits 0 or 1; a committed or cancelled
outcome exits 0; every fatal outcome exits 1 with its message printed on
the single handler's failure line; and a child spawn happens only on the
explicit user-driven regenerate choice. -/
theorem run_exit_codes (i : Inputs) :
    ((run i).exitCode = 0 ∨ (run i).exitCode = 1)
    ∧ (∀ m, (run i).outcome = Outcome.committed m → (run i).exitCode = 0)
    ∧ ((run i).outcome = Outcome.cancelled → (run i).exitCode = 0)
    ∧ (∀ e, (run i).outcome = Outcome.fatal e →
        (run i).exitCode = 1 ∧ (run i).outroMsg = some (errLine e))
    ∧ ((run i).spawns ≠ [] → i.confirmAnswer = Answer.submitted Confirm3.regenerate) := by
  unfold run
  repeat' split
  all_goals simp_all

/-- C9: the analyzing spinner is stopped exactly when it was started
(the cleanup is unconditional), and a failed generation call yields a
fatal outcome with exit code 1, no selection prompt ever shown and no
commit. -/
theorem run_spinner_and_gen_failure (i : Inputs) :
    (run i).analyzeStopped = (run i).analyzeStarted
    ∧ (∀ b p e, ReachesGen i b p → i.genResult = Except.error e →
        (run i).outcome = Outcome.fatal e ∧ (run i).exitCode = 1
        ∧ (run i).analyzeStarted = true ∧ (run i).analyzeStopped = true
        ∧ (run i).singlePromptShown = false ∧ (run i).multiPromptShown = false
        ∧ (run i).commits = []) := by
  constructor
  · unfold run
    repeat' split
    all_goals rfl
  · intro b p e hre hgen
    obtain ⟨⟨hrc, hau, d, hst⟩, hbg, hpf⟩ := hre
    have hadd := stage_step_ok i hau
    simp [run, hrc, hadd, hst, hbg, hpf, hgen]

/-- C10: the auxiliary instruction handed to the generator is exactly
`genInstructionOf`: the empty string when the note is empty and the
prefix is not entrust, and the note text with the emoji-and-prefix
directive appended whenever the prefix is entrust. -/
theorem run_gen_instruction (i : Inputs) (b : String) (p : PrefixChoice)
    (hre : ReachesGen i b p) :
    (run i).genInstruction = some (genInstructionOf p b)
    ∧ (b = "" → p ≠ PrefixChoice.entrust → (run i).genInstruction = some "")
    ∧ (p = PrefixChoice.entrust →
        (run i).genInstruction = some (bgInfoText b ++ entrustDirective)) := by
  obtain ⟨⟨hrc, hau, d, hst⟩, hbg, hpf⟩ := hre
  have hadd := stage_step_ok i hau
  have hmain : (run i).genInstruction = some (genInstructionOf p b) := by
    rcases hg : i.genResult with e | ms
    · simp [run, hrc, hadd, hst, hbg, hpf, hg]
    · rcases ms with _ | ⟨m0, _ | ⟨m1, rest⟩⟩
      · simp [run, hrc, hadd, hst, hbg, hpf, hg]
      · rcases hca : i.confirmAnswer with _ | c
        · simp [run, hrc, hadd, hst, hbg, hpf, hg, hca]
        · cases c
          · rcases hcr : i.commitResult with e | u <;>
              simp [run, hrc, hadd, hst, hbg, hpf, hg, hca, hcr]
          · rcases hrg : i.regenChild with e | u <;>
              simp [run, hrc, hadd, hst, hbg, hpf, hg, hca, hrg]
          · simp [run, hrc, hadd, hst, hbg, hpf, hg, hca]
      · rcases hmp : i.multiPick (m0 :: m1 :: rest) with _ | sel
        · simp [run, hrc, hadd, hst, hbg, hpf, hg, hmp]
        · rcases hcr : i.commitResult with e | u <;>
            simp [run, hrc, hadd, hst, hbg, hpf, hg, hmp, hcr]
  refine ⟨hmain, ?_, ?_⟩
  · intro hb hp
    rw [hmain]
    simp [genInstructionOf, bgInfoText, hb, hp]
  · intro hp
    rw [hmain]
    simp [genInstructionOf, hp]

/-- A concrete staged diff for exercising the theorems. -/
def sampleDiff : StagedDiff := ⟨["src/login.ts"], "diff --git a/src/login.ts b/src/login.ts"⟩

/-- A concrete happy-path input: repository present, one staged file,
empty note, prefix `fix`, one candidate, user confirms, commit succeeds. -/
def inputsBase : Inputs where
  generate := Option.none
  excludeFiles := []
  stageAll := false
  commitType := Option.none
  rawArgv := []
  repoCheck := Except.ok ()
  addUpdate := Except.ok ()
  staged := some sampleDiff
  bgInfoAnswer := Answer.submitted ("")
  pfxAnswer := Answer.submitted PrefixChoice.fix
  genResult := Except.ok ["add login guard"]
  confirmAnswer := Answer.submitted Confirm3.yes
  multiPick := fun _ => Answer.cancelled
  commitResult := Except.ok ()
  regenChild := Except.ok ()

/-- Input cancelling at the background-note prompt. -/
def cancelAtNoteInputs : Inputs :=
  { inputsBase with bgInfoAnswer := Answer.cancelled }

/-- Input choosing No-regenerate at the single-candidate confirmation. -/
def regenInputs : Inputs :=
  { inputsBase with confirmAnswer := Answer.submitted Confirm3.regenerate }

/-- Input with three candidates, prefix `none`, picking the second. -/
def multiInputs : Inputs :=
  { inputsBase with
    pfxAnswer := Answer.submitted PrefixChoice.none
    genResult := Except.ok ["first message", "second message", "third message"]
    multiPick := fun _ => Answer.submitted ("second message") }

/-- Input whose generation call returns zero candidates. -/
def emptyGenInputs : Inputs :=
  { inputsBase with genResult := Except.ok [] }

/-- Input with no staged diff. -/
def noStagedInputs : Inputs :=
  { inputsBase with staged := Option.none }

/-- Input whose generation call fails (timeout). -/
def genFailInputs : Inputs :=
  { inputsBase with genResult := Except.error ("timeout") }

/-- C3 witness: cancelling the note prompt on the concrete input. -/
theorem run_cancel_paths_witness :
    (run cancelAtNoteInputs).outcome = Outcome.cancelled
    ∧ (run cancelAtNoteInputs).commits = []
    ∧ (run cancelAtNoteInputs).spawns = []
    ∧ (run cancelAtNoteInputs).exitCode = 0
    ∧ (run cancelAtNoteInputs).outroMsg = some cancelOutro :=
  run_cancel_paths cancelAtNoteInputs ⟨rfl, fun _ => rfl, sampleDiff, rfl⟩ (Or.inl rfl)

/-- C4 witness: one spawn and no commit on the concrete regenerate input. -/
theorem run_single_regenerate_witness :
    (run regenInputs).spawns = [⟨"aim", [], true⟩]
    ∧ (run regenInputs).commits = [] := by
  have h := run_single_regenerate regenInputs ("") PrefixChoice.fix ("add login guard")
    ⟨⟨rfl, fun _ => rfl, sampleDiff, rfl⟩, rfl, rfl⟩ rfl rfl
  exact ⟨h.1, h.2.1⟩

/-- C5 witness: three candidates shown in order with no default, the
picked second candidate committed verbatim under prefix `none`. -/
theorem run_multi_pick_witness :
    (run multiInputs).multiOptions =
      [("first message", "first message"), ("second message", "second message"),
        ("third message", "third message")]
    ∧ (run multiInputs).multiDefault = Option.none
    ∧ (run multiInputs).singlePromptShown = false
    ∧ (run multiInputs).commits = [⟨"second message", []⟩] := by
  have h := run_multi_pick multiInputs ("") PrefixChoice.none ("first message")
    ("second message") ["third message"]
    ⟨⟨rfl, fun _ => rfl, sampleDiff, rfl⟩, rfl, rfl⟩ rfl
  exact ⟨h.1, h.2.1, h.2.2.1, h.2.2.2.2.1 ("second message") rfl⟩

/-- C6 witness: the empty candidate set on the concrete input. -/
theorem run_empty_generation_witness :
    (run emptyGenInputs).outcome = Outcome.fatal emptyGenMsg
    ∧ (run emptyGenInputs).exitCode = 1 ∧ (run emptyGenInputs).commits = []
    ∧ (run emptyGenInputs).singlePromptShown = false
    ∧ (run emptyGenInputs).multiPromptShown = false
    ∧ (run emptyGenInputs).outroMsg = some (errLine emptyGenMsg) :=
  run_empty_generation emptyGenInputs ("") PrefixChoice.fix
    ⟨⟨rfl, fun _ => rfl, sampleDiff, rfl⟩, rfl, rfl⟩ rfl

/-- C7 witness: no staged diff on the concrete input. -/
theorem run_no_staged_changes_witness :
    (run noStagedInputs).outcome = Outcome.fatal noStagedMsg
    ∧ (run noStagedInputs).exitCode = 1
    ∧ (run noStagedInputs).commits = []
    ∧ (run noStagedInputs).outroMsg = some (errLine noStagedMsg)
    ∧ (run noStagedInputs).singlePromptShown = false
    ∧ (run noStagedInputs).multiPromptShown = false :=
  run_no_staged_changes noStagedInputs rfl rfl rfl

/-- C8 witness: the exit code of the happy-path input is 0 or 1. -/
theorem run_exit_codes_witness :
    (run inputsBase).exitCode = 0 ∨ (run inputsBase).exitCode = 1 :=
  (run_exit_codes inputsBase).1

/-- C9 witness: the failed generation call on the concrete input. -/
theorem run_spinner_and_gen_failure_witness :
    (run genFailInputs).outcome = Outcome.fatal ("timeout")
    ∧ (run genFailInputs).exitCode = 1
    ∧ (run genFailInputs).analyzeStarted = true
    ∧ (run genFailInputs).analyzeStopped = true
    ∧ (run genFailInputs).singlePromptShown = false
    ∧ (run genFailInputs).multiPromptShown = false
    ∧ (run genFailInputs).commits = [] :=
  (run_spinner_and_gen_failure genFailInputs).2 ("") PrefixChoice.fix ("timeout")
    ⟨⟨rfl, fun _ => rfl, sampleDiff, rfl⟩, rfl, rfl⟩ rfl

/-- C10 witness: empty note with the non-entrust prefix `fix` passes the
empty instruction string to the generator. -/
theorem run_gen_instruction_witness :
    (run inputsBase).genInstruction = some ("") :=
  (run_gen_instruction inputsBase ("") PrefixChoice.fix
    ⟨⟨rfl, fun _ => rfl, sampleDiff, rfl⟩, rfl, rfl⟩).2.1 rfl (by decide)
